import Mathlib

/-!
Shallow embedding of the `dlt-pipelines` repository (files
`src/pokemon/__init__.py`, `src/pokemon/settings.py`, `src/pokemon_pipeline.py`,
`src/chess_pipeline.py`) together with theorems settling the frozen claims.

HTTP is abstracted into oracles: an oracle maps a request key (a Pokemon id or
a detail URL) to `none` (the request raised `requests.exceptions.RequestException`,
i.e. a network error, a non-2xx status surfaced by `raise_for_status`, or a JSON
decode failure, all of which are subclasses of `RequestException`) or to
`some payload` (the parsed JSON body).  Python dicts become association lists
`List (String × Val)` in insertion order; Python `None`/JSON null becomes
`Val.null`; `time.sleep(0.1)` becomes an explicit `Event.sleep` in an event
trace.
-/

namespace DltPipelines

/-- A JSON-like value, the codomain of the flattened records the resources
yield (Python values placed into the yielded dicts). -/
inductive Val where
  | null
  | bool (b : Bool)
  | int (n : Int)
  | str (s : String)
  | list (xs : List Val)
  | map (kvs : List (String × Val))
  deriving Repr

/-- A flattened record: a Python dict in insertion order. -/
abbrev Record := List (String × Val)

/-- `{"name": ...}` reference object as returned by the API. -/
structure NamedRef where
  name : String
  deriving Repr, DecidableEq

/-- One element of a `results` list of a list endpoint: `{"name": ..., "url": ...}`. -/
structure ListEntry where
  name : String
  url : String
  deriving Repr, DecidableEq

/-- One element of `types`: `{"type": {"name": ...}}`. -/
structure TypeSlot where
  type : NamedRef
  deriving Repr, DecidableEq

/-- One element of `abilities`: `{"ability": {"name": ...}}`. -/
structure AbilitySlot where
  ability : NamedRef
  deriving Repr, DecidableEq

/-- One element of `moves`: `{"move": {"name": ...}}`. -/
structure MoveSlot where
  move : NamedRef
  deriving Repr, DecidableEq

/-- One element of `stats`: `{"stat": {"name": ...}, "base_stat": ...}`. -/
structure StatSlot where
  stat : NamedRef
  base_stat : Val
  deriving Repr

/-- The `sprites` object; the code reads it with `.get`, so each key may be
absent (or JSON null), both modelled as `none`. -/
structure SpritesPayload where
  front_default : Option String
  back_default : Option String
  front_shiny : Option String
  back_shiny : Option String
  deriving Repr, DecidableEq

/-- The parsed JSON body of a Pokemon detail response, holding exactly the
fields `pokemon_details` reads.  Fields the code passes through unchanged are
kept as raw `Val`. -/
structure PokemonPayload where
  id : Val
  name : Val
  height : Val
  weight : Val
  base_experience : Val
  is_default : Val
  order : Val
  species : NamedRef
  types : List TypeSlot
  abilities : List AbilitySlot
  moves : List MoveSlot
  stats : List StatSlot
  sprites : SpritesPayload
  deriving Repr

/-- One element of a berry's `flavors` list. -/
structure FlavorEntry where
  flavor : NamedRef
  potency : Val
  deriving Repr

/-- The parsed JSON body of a berry detail response.  `item` is `none` when the
JSON field is null (the code tests `if berry_data["item"]`). -/
structure BerryPayload where
  id : Val
  name : Val
  growth_time : Val
  max_harvest : Val
  natural_gift_power : Val
  size : Val
  smoothness : Val
  soil_dryness : Val
  firmness : NamedRef
  flavors : List FlavorEntry
  item : Option NamedRef
  deriving Repr

/-- One element of `effect_entries`. -/
structure EffectEntry where
  effect : Val
  short_effect : Val
  deriving Repr

/-- One element of a `pokemon` list: `{"pokemon": {"name": ...}}`. -/
structure PokemonSlot where
  pokemon : NamedRef
  deriving Repr, DecidableEq

/-- The parsed JSON body of an ability detail response. -/
structure AbilityPayload where
  id : Val
  name : Val
  is_main_series : Val
  generation : NamedRef
  effect_entries : List EffectEntry
  pokemon : List PokemonSlot
  deriving Repr

/-- The parsed JSON body of a move detail response. -/
structure MovePayload where
  id : Val
  name : Val
  accuracy : Val
  effect_chance : Val
  pp : Val
  priority : Val
  power : Val
  damage_class : NamedRef
  type : NamedRef
  generation : NamedRef
  effect_entries : List EffectEntry
  deriving Repr

/-- The `damage_relations` object of a type detail response. -/
structure DamageRelations where
  double_damage_from : List NamedRef
  double_damage_to : List NamedRef
  half_damage_from : List NamedRef
  half_damage_to : List NamedRef
  no_damage_from : List NamedRef
  no_damage_to : List NamedRef
  deriving Repr, DecidableEq

/-- The parsed JSON body of a type detail response. -/
structure TypePayload where
  id : Val
  name : Val
  generation : NamedRef
  damage_relations : DamageRelations
  pokemon : List PokemonSlot
  deriving Repr

/-- `Optional[str]` rendered into a record slot: Python `None` prints as JSON null. -/
def optStr : Option String → Val
  | none => Val.null
  | some s => Val.str s

/-- The dict literal yielded by `pokemon_details` in `src/pokemon/__init__.py`. -/
def flattenPokemon (p : PokemonPayload) : Record :=
  [("id", p.id),
   ("name", p.name),
   ("height", p.height),
   ("weight", p.weight),
   ("base_experience", p.base_experience),
   ("is_default", p.is_default),
   ("order", p.order),
   ("species", Val.str p.species.name),
   ("types", Val.list (p.types.map (fun s => Val.str s.type.name))),
   ("abilities", Val.list (p.abilities.map (fun s => Val.str s.ability.name))),
   ("moves", Val.list (p.moves.map (fun s => Val.str s.move.name))),
   ("stats", Val.map (p.stats.map (fun s => (s.stat.name, s.base_stat)))),
   ("sprites", Val.map
      [("front_default", optStr p.sprites.front_default),
       ("back_default", optStr p.sprites.back_default),
       ("front_shiny", optStr p.sprites.front_shiny),
       ("back_shiny", optStr p.sprites.back_shiny)])]

/-- The dict literal yielded by `berries` in `src/pokemon/__init__.py`;
`berry_data["item"]["name"] if berry_data["item"] else None`. -/
def flattenBerry (b : BerryPayload) : Record :=
  [("id", b.id),
   ("name", b.name),
   ("growth_time", b.growth_time),
   ("max_harvest", b.max_harvest),
   ("natural_gift_power", b.natural_gift_power),
   ("size", b.size),
   ("smoothness", b.smoothness),
   ("soil_dryness", b.soil_dryness),
   ("firmness", Val.str b.firmness.name),
   ("flavors", Val.map (b.flavors.map (fun f => (f.flavor.name, f.potency)))),
   ("item", match b.item with
            | some i => Val.str i.name
            | none => Val.null)]

/-- The dict literal yielded by `abilities` in `src/pokemon/__init__.py`;
`effect_entries[0]["effect"] if effect_entries else None` and likewise for
`short_effect`. -/
def flattenAbility (a : AbilityPayload) : Record :=
  [("id", a.id),
   ("name", a.name),
   ("is_main_series", a.is_main_series),
   ("generation", Val.str a.generation.name),
   ("effect", match a.effect_entries with
              | e :: _ => e.effect
              | [] => Val.null),
   ("short_effect", match a.effect_entries with
                    | e :: _ => e.short_effect
                    | [] => Val.null),
   ("pokemon", Val.list (a.pokemon.map (fun s => Val.str s.pokemon.name)))]

/-- The dict literal yielded by `moves` in `src/pokemon/__init__.py`. -/
def flattenMove (m : MovePayload) : Record :=
  [("id", m.id),
   ("name", m.name),
   ("accuracy", m.accuracy),
   ("effect_chance", m.effect_chance),
   ("pp", m.pp),
   ("priority", m.priority),
   ("power", m.power),
   ("damage_class", Val.str m.damage_class.name),
   ("type", Val.str m.type.name),
   ("generation", Val.str m.generation.name),
   ("effect", match m.effect_entries with
              | e :: _ => e.effect
              | [] => Val.null),
   ("short_effect", match m.effect_entries with
                    | e :: _ => e.short_effect
                    | [] => Val.null)]

/-- The dict literal yielded by `types` in `src/pokemon/__init__.py`. -/
def flattenType (ty : TypePayload) : Record :=
  [("id", ty.id),
   ("name", ty.name),
   ("generation", Val.str ty.generation.name),
   ("damage_relations", Val.map
      [("double_damage_from", Val.list (ty.damage_relations.double_damage_from.map (fun d => Val.str d.name))),
       ("double_damage_to", Val.list (ty.damage_relations.double_damage_to.map (fun d => Val.str d.name))),
       ("half_damage_from", Val.list (ty.damage_relations.half_damage_from.map (fun d => Val.str d.name))),
       ("half_damage_to", Val.list (ty.damage_relations.half_damage_to.map (fun d => Val.str d.name))),
       ("no_damage_from", Val.list (ty.damage_relations.no_damage_from.map (fun d => Val.str d.name))),
       ("no_damage_to", Val.list (ty.damage_relations.no_damage_to.map (fun d => Val.str d.name)))]),
   ("pokemon", Val.list (ty.pokemon.map (fun s => Val.str s.pokemon.name)))]

/-! ### Constants from `src/pokemon/settings.py` -/

/-- `MAX_POKEMON_ID = 1010` (current total Pokemon count). -/
def MAX_POKEMON_ID : Int := 1010

/-- `DEFAULT_LIMIT = 20` (declared, unused by the resources). -/
def DEFAULT_LIMIT : Int := 20

/-- Base URL for the Pokemon API. -/
def BASE_URL : String := "https://pokeapi.co/api/v2"

/-- `BERRY_LIST_URL` from `src/pokemon/settings.py`. -/
def BERRY_LIST_URL : String := BASE_URL ++ "/berry"

/-- `ABILITY_URL` from `src/pokemon/settings.py`. -/
def ABILITY_URL : String := BASE_URL ++ "/ability"

/-- `MOVE_URL` from `src/pokemon/settings.py`. -/
def MOVE_URL : String := BASE_URL ++ "/move"

/-- `TYPE_URL` from `src/pokemon/settings.py`. -/
def TYPE_URL : String := BASE_URL ++ "/type"

/-! ### The `pokemon_details` resource (`src/pokemon/__init__.py`) -/

/-- Python `range(a, b)`: the integers `a, a+1, ..., b-1` (empty when `b ≤ a`). -/
def pythonRange (a b : Int) : List Int :=
  (List.range (b - a).toNat).map (fun k : Nat => a + (k : Int))

/-- Python `limit or default`: the default when `limit` is `None` or `0`
(falsy), otherwise `limit`. -/
def pyOrInt (limit : Option Int) (d : Int) : Int :=
  match limit with
  | none => d
  | some n => if n = 0 then d else n

/-- `max_id = min(limit or MAX_POKEMON_ID, MAX_POKEMON_ID)` in `pokemon_details`. -/
def pokemonMaxId (limit : Option Int) : Int :=
  min (pyOrInt limit MAX_POKEMON_ID) MAX_POKEMON_ID

/-- The ids `for pokemon_id in range(1, max_id + 1)` iterates over. -/
def pokemonIds (limit : Option Int) : List Int :=
  pythonRange 1 (pokemonMaxId limit + 1)

/-- The records yielded by `pokemon_details`: one per id whose fetch succeeds
(the `except RequestException: continue` skips the failed ids). -/
def pokemonRecords (oracle : Int → Option PokemonPayload) (limit : Option Int) :
    List Record :=
  (pokemonIds limit).filterMap (fun i => (oracle i).map flattenPokemon)

/-- The line `print(f"Error fetching Pokemon {pokemon_id}: {e}")` up to the
exception text. -/
def pokemonLogLine (i : Int) : String :=
  "Error fetching Pokemon " ++ toString i

/-- The error lines `pokemon_details` prints, one per failed id, in id order. -/
def pokemonDetailsLogs (oracle : Int → Option PokemonPayload) (limit : Option Int) :
    List String :=
  ((pokemonIds limit).filter (fun i => (oracle i).isNone)).map pokemonLogLine

/-- Observable events of one `pokemon_details` run: issuing the GET for an id,
yielding a record, and `time.sleep(0.1)`. -/
inductive Event where
  | request (i : Int)
  | yielded (r : Record)
  | sleep
  deriving Repr

/-- Whether an event is the fixed 100ms delay. -/
def Event.isSleep : Event → Bool
  | Event.sleep => true
  | _ => false

/-- The events of one loop iteration of `pokemon_details`: the request always
happens; only on success do the yield and the `time.sleep(0.1)` follow (the
sleep sits inside the `try`, after the yield, so an exception skips it and
`continue` moves straight to the next id). -/
def pokemonBlock (oracle : Int → Option PokemonPayload) (i : Int) : List Event :=
  match oracle i with
  | some p => [Event.request i, Event.yielded (flattenPokemon p), Event.sleep]
  | none => [Event.request i]

/-- The full event trace of one `pokemon_details` run. -/
def pokemonTrace (oracle : Int → Option PokemonPayload) (limit : Option Int) :
    List Event :=
  (pokemonIds limit).flatMap (pokemonBlock oracle)

/-! ### The list+detail resources (`berries`, `abilities`, `moves`, `types`) -/

/-- The line `print(f"Error fetching {category} list: {e}")` up to the
exception text. -/
def listFailLine (cat : String) : String :=
  "Error fetching " ++ cat ++ " list"

/-- The line `print(f"Error fetching {category} {summary['name']}: {e}")` up to
the exception text. -/
def listLogLine (cat : String) (nm : String) : String :=
  "Error fetching " ++ cat ++ " " ++ nm

/-- The shared shape of `berries`, `abilities`, `moves` and `types`: fetch the
list endpoint (`listOracle`; `none` models a failed request), then one detail
request per entry in list order, skipping entries whose detail request fails.
Returns the yielded records and the printed error lines. -/
def listDetailRun {α : Type} (cat : String) (listOracle : Option (List ListEntry))
    (det : String → Option α) (flat : α → Record) : List Record × List String :=
  match listOracle with
  | none => ([], [listFailLine cat])
  | some entries =>
      (entries.filterMap (fun e => (det e.url).map flat),
       (entries.filter (fun e => (det e.url).isNone)).map
         (fun e => listLogLine cat e.name))

/-- The `berries` resource. -/
def berriesRun (listOracle : Option (List ListEntry))
    (det : String → Option BerryPayload) : List Record × List String :=
  listDetailRun "berry" listOracle det flattenBerry

/-- The `abilities` resource. -/
def abilitiesRun (listOracle : Option (List ListEntry))
    (det : String → Option AbilityPayload) : List Record × List String :=
  listDetailRun "ability" listOracle det flattenAbility

/-- The `moves` resource. -/
def movesRun (listOracle : Option (List ListEntry))
    (det : String → Option MovePayload) : List Record × List String :=
  listDetailRun "move" listOracle det flattenMove

/-- The `types` resource. -/
def typesRun (listOracle : Option (List ListEntry))
    (det : String → Option TypePayload) : List Record × List String :=
  listDetailRun "type" listOracle det flattenType

/-- Observable events of one list+detail run (`berries`, `abilities`, `moves`,
`types`): issuing a GET (the list endpoint or one detail URL), yielding a
record, and `time.sleep(0.1)`. -/
inductive ListEvent where
  | request (url : String)
  | yielded (r : Record)
  | sleep
  deriving Repr

/-- Whether a list+detail event is the fixed 100ms delay. -/
def ListEvent.isSleep : ListEvent → Bool
  | ListEvent.sleep => true
  | _ => false

/-- The events of one inner-loop iteration of a list+detail resource: the
detail request always happens; only on success do the yield and the
`time.sleep(0.1)` follow (in all four resources the sleep sits inside the
inner `try`, after the yield, so an exception skips it and `continue` moves
straight to the next entry). -/
def listBlock {α : Type} (det : String → Option α) (flat : α → Record)
    (e : ListEntry) : List ListEvent :=
  match det e.url with
  | some p => [ListEvent.request e.url, ListEvent.yielded (flat p), ListEvent.sleep]
  | none => [ListEvent.request e.url]

/-- The full event trace of one list+detail run: the list-endpoint request
first; if it fails nothing else happens, otherwise one `listBlock` per entry
in list order. -/
def listDetailTrace {α : Type} (listUrl : String)
    (listOracle : Option (List ListEntry)) (det : String → Option α)
    (flat : α → Record) : List ListEvent :=
  ListEvent.request listUrl ::
    (match listOracle with
     | none => []
     | some entries => entries.flatMap (listBlock det flat))

/-- The event trace of one `berries` run. -/
def berriesTrace (listOracle : Option (List ListEntry))
    (det : String → Option BerryPayload) : List ListEvent :=
  listDetailTrace BERRY_LIST_URL listOracle det flattenBerry

/-- The event trace of one `abilities` run. -/
def abilitiesTrace (listOracle : Option (List ListEntry))
    (det : String → Option AbilityPayload) : List ListEvent :=
  listDetailTrace ABILITY_URL listOracle det flattenAbility

/-- The event trace of one `moves` run. -/
def movesTrace (listOracle : Option (List ListEntry))
    (det : String → Option MovePayload) : List ListEvent :=
  listDetailTrace MOVE_URL listOracle det flattenMove

/-- The event trace of one `types` run. -/
def typesTrace (listOracle : Option (List ListEntry))
    (det : String → Option TypePayload) : List ListEvent :=
  listDetailTrace TYPE_URL listOracle det flattenType

/-! ### The pokemon loader (`load` in `src/pokemon_pipeline.py`) -/

/-- The keyword arguments of the `dlt.pipeline(...)` call. -/
structure PipelineConfig where
  pipeline_name : String
  destination : String
  dataset_name : String
  progress : String
  full_refresh : Bool
  dev_mode : Bool
  deriving Repr, DecidableEq

/-- The fixed configuration `load` builds in `src/pokemon_pipeline.py`. -/
def pokemonPipelineConfig : PipelineConfig :=
  { pipeline_name := "pokemon_api"
    destination := "bigquery"
    dataset_name := "pokemon_data"
    progress := "log"
    full_refresh := false
    dev_mode := false }

/-- The fixed configuration `load` builds in `src/chess_pipeline.py`. -/
def chessPipelineConfig : PipelineConfig :=
  { pipeline_name := "chess_api"
    destination := "bigquery"
    dataset_name := "chess_data"
    progress := "log"
    full_refresh := false
    dev_mode := false }

/-- All the HTTP behaviour one pokemon pipeline run can observe. -/
structure PokemonOracles where
  pokemon : Int → Option PokemonPayload
  berryList : Option (List ListEntry)
  berry : String → Option BerryPayload
  abilityList : Option (List ListEntry)
  ability : String → Option AbilityPayload
  moveList : Option (List ListEntry)
  move : String → Option MovePayload
  typeList : Option (List ListEntry)
  typeDetail : String → Option TypePayload

/-- The five resources of `source()` in `src/pokemon/__init__.py`, in
declaration order, each paired with the record sequence it produces.  Inside
`load` the generator parameter `limit` is never passed, so `pokemon_details`
runs with `limit = None`. -/
def pokemonSourceTables (o : PokemonOracles) : List (String × List Record) :=
  [("pokemon_details", pokemonRecords o.pokemon none),
   ("berries", (berriesRun o.berryList o.berry).1),
   ("abilities", (abilitiesRun o.abilityList o.ability).1),
   ("moves", (movesRun o.moveList o.move).1),
   ("types", (typesRun o.typeList o.typeDetail).1)]

/-- Python truthiness of `Optional[int]`: `None` and `0` are falsy. -/
def pyTruthyInt : Option Int → Bool
  | none => false
  | some n => decide (n ≠ 0)

/-- dlt's `resource.add_limit(n)`: truncate the yielded sequence after `n`
items. -/
def addLimit {α : Type} (n : Int) (l : List α) : List α :=
  l.take n.toNat

/-- `load(resources, pokemon_limit)` in `src/pokemon_pipeline.py`: build the
fixed pipeline configuration, replace the `pokemon_details` resource with its
`add_limit` version when `"pokemon_details" in resources and pokemon_limit`
(Python truthiness), select the requested resources with `with_resources`, and
submit. -/
def pokemonLoad (o : PokemonOracles) (resources : List String)
    (pokemon_limit : Option Int) : PipelineConfig × List (String × List Record) :=
  let src := pokemonSourceTables o
  let src :=
    if resources.contains "pokemon_details" && pyTruthyInt pokemon_limit then
      src.map (fun p =>
        if p.1 = "pokemon_details" then (p.1, addLimit (pokemon_limit.getD 0) p.2)
        else p)
    else src
  (pokemonPipelineConfig, src.filter (fun p => resources.contains p.1))

/-- `print(f"  - {table_name}: {table_info.get('row_count', 'N/A')} rows")`:
a per-table report line; a missing `row_count` prints as `N/A`. -/
def rowCountLine (tableName : String) (rc : Option Nat) : String :=
  "  - " ++ tableName ++ ": " ++ (match rc with
                                  | some n => toString n
                                  | none => "N/A") ++ " rows"

/-- The report loop at the end of `load`: for each load package print its
header line, then one `rowCountLine` per table, accumulating the printed lines
in order. -/
def loadReport (packages : List (String × List (String × Option Nat))) :
    List String :=
  packages.foldl
    (fun acc pkg =>
      acc ++ (("Package " ++ pkg.1 ++ ":")
                :: pkg.2.map (fun tp => rowCountLine tp.1 tp.2)))
    []

/-! ### The chess loader (`load` in `src/chess_pipeline.py`) -/

/-- Python truthiness of `Optional[str]`: `None` and `""` are falsy. -/
def pyTruthyStr : Option String → Bool
  | none => false
  | some s => decide (s ≠ "")

/-- The default player list of `load` in `src/chess_pipeline.py`. -/
def defaultPlayers : List String :=
  ["magnuscarlsen", "rpragchess", "vincentkeymer", "dommarajugukesh"]

/-- The arguments `load` passes to the chess `source(...)` fetch layer. -/
structure ChessSourceArgs where
  players : List String
  start_month : String
  end_month : String
  deriving Repr, DecidableEq

/-- `load(resources, players, start_month, end_month)` in
`src/chess_pipeline.py`, restricted to the argument shaping it performs before
calling `source(...)`: `if not players` installs the default list, and
`if not start_month or not end_month` replaces BOTH bounds with the computed
default range (the last 90 days, formatted `%Y/%m`; passed in here as
`defStart`/`defEnd` since it depends on the wall clock). -/
def chessLoad (players : Option (List String)) (start_month end_month : Option String)
    (defStart defEnd : String) : ChessSourceArgs :=
  let ps := match players with
            | none => defaultPlayers
            | some l => if l.isEmpty then defaultPlayers else l
  if !(pyTruthyStr start_month) || !(pyTruthyStr end_month) then
    { players := ps, start_month := defStart, end_month := defEnd }
  else
    { players := ps
      start_month := start_month.getD ""
      end_month := end_month.getD "" }

/-! ### Concrete payloads used to exercise the model -/

/-- A sprites object with every key absent. -/
def stubSprites : SpritesPayload := ⟨none, none, none, none⟩

/-- A minimal Pokemon detail payload whose body id matches the requested id. -/
def stubPokemonAt (i : Int) : PokemonPayload :=
  ⟨Val.int i, Val.null, Val.null, Val.null, Val.null, Val.null, Val.null,
   ⟨""⟩, [], [], [], [], stubSprites⟩

/-- A minimal berry payload whose `item` is JSON null. -/
def stubBerry : BerryPayload :=
  ⟨Val.int 1, Val.null, Val.null, Val.null, Val.null, Val.null, Val.null,
   Val.null, ⟨"soft"⟩, [], none⟩

/-- A berry payload with an `item` object. -/
def stubBerryItem : BerryPayload := { stubBerry with item := some ⟨"oran"⟩ }

/-- A minimal ability payload with an empty `effect_entries` list. -/
def stubAbility : AbilityPayload :=
  ⟨Val.int 1, Val.null, Val.null, ⟨"generation-i"⟩, [], []⟩

/-- An ability payload with one effect entry. -/
def stubAbilityEff : AbilityPayload :=
  { stubAbility with effect_entries := [⟨Val.str "full", Val.str "short"⟩] }

/-- A minimal move payload with an empty `effect_entries` list. -/
def stubMove : MovePayload :=
  ⟨Val.int 1, Val.null, Val.null, Val.null, Val.null, Val.null, Val.null,
   ⟨"physical"⟩, ⟨"normal"⟩, ⟨"generation-i"⟩, []⟩

/-- A minimal type payload. -/
def stubType : TypePayload :=
  ⟨Val.int 1, Val.null, ⟨"generation-i"⟩, ⟨[], [], [], [], [], []⟩, []⟩

/-- Oracles under which every request fails. -/
def emptyOracles : PokemonOracles :=
  { pokemon := fun _ => none
    berryList := none
    berry := fun _ => none
    abilityList := none
    ability := fun _ => none
    moveList := none
    move := fun _ => none
    typeList := none
    typeDetail := fun _ => none }

/-! ### Helper lemmas -/

/-- `filterMap` of an everywhere-`some` function is a `map`. -/
theorem filterMap_some_eq_map {α β : Type} (g : α → β) :
    ∀ l : List α, l.filterMap (fun a => some (g a)) = l.map g := by
  intro l
  induction l with
  | nil => rfl
  | cons a l ih => simp [List.filterMap_cons, ih]

/-- `filterMap` of a function masked by a boolean test is a `map` over the
`filter`. -/
theorem filterMap_mask {α β : Type} (q : α → Bool) (g : α → β) :
    ∀ l : List α,
      l.filterMap (fun a => if q a then some (g a) else none)
        = (l.filter q).map g := by
  intro l
  induction l with
  | nil => rfl
  | cons a l ih =>
    cases hq : q a <;> simp [List.filterMap_cons, List.filter_cons, hq, ih]

/-- If `f` fails exactly on the elements whose key is `u` and agrees with `g`
elsewhere, then `filterMap f` is `filterMap g` over the other elements. -/
theorem filterMap_except {α κ β : Type} [DecidableEq κ]
    (key : α → κ) (u : κ) (f g : α → Option β)
    (hfail : ∀ a, key a = u → f a = none)
    (hagree : ∀ a, key a ≠ u → f a = g a) :
    ∀ l : List α,
      l.filterMap f = (l.filter (fun a => decide (key a ≠ u))).filterMap g := by
  intro l
  induction l with
  | nil => rfl
  | cons a l ih =>
    by_cases h : key a = u
    · simp [List.filterMap_cons, List.filter_cons, h, hfail a h, ih]
    · simp [List.filterMap_cons, List.filter_cons, h, hagree a h, ih]

/-- A Python integer range is strictly increasing. -/
theorem pythonRange_pairwise (a b : Int) :
    (pythonRange a b).Pairwise (· < ·) := by
  unfold pythonRange
  rw [List.pairwise_map]
  refine (List.pairwise_lt_range _).imp ?_
  intro x y hxy
  omega

/-- The report loop prints exactly one header per package followed by one
row-count line per table, in order, and nothing else. -/
theorem loadReport_eq (packages : List (String × List (String × Option Nat))) :
    loadReport packages
      = packages.flatMap (fun pkg =>
          ("Package " ++ pkg.1 ++ ":")
            :: pkg.2.map (fun tp => rowCountLine tp.1 tp.2)) := by
  have general :
      ∀ (ps : List (String × List (String × Option Nat))) (acc : List String),
        ps.foldl
          (fun acc pkg =>
            acc ++ (("Package " ++ pkg.1 ++ ":")
                      :: pkg.2.map (fun tp => rowCountLine tp.1 tp.2)))
          acc
          = acc ++ ps.flatMap (fun pkg =>
              ("Package " ++ pkg.1 ++ ":")
                :: pkg.2.map (fun tp => rowCountLine tp.1 tp.2)) := by
    intro ps
    induction ps with
    | nil => intro acc; simp
    | cons p ps ih => intro acc; simp [List.foldl_cons, ih]
  simpa using general packages []

/-- The `"id"` slot of a flattened Pokemon record is the payload's `id`. -/
theorem lookup_id_flattenPokemon (p : PokemonPayload) :
    (flattenPokemon p).lookup "id" = some p.id := rfl

/-- A list+detail inner-loop block contains the fixed delay exactly when its
detail request succeeded. -/
theorem listBlock_sleep_iff {α : Type} (det : String → Option α)
    (flat : α → Record) (e : ListEntry) :
    ListEvent.sleep ∈ listBlock det flat e ↔ (det e.url).isSome = true := by
  cases h : det e.url <;> simp [listBlock, h]

/-- A list+detail inner-loop block contains its own detail request. -/
theorem listBlock_request_mem {α : Type} (det : String → Option α)
    (flat : α → Record) (e : ListEntry) :
    ListEvent.request e.url ∈ listBlock det flat e := by
  cases h : det e.url <;> simp [listBlock, h]

/-- In a list+detail run the number of fixed delays equals the number of
successful detail requests. -/
theorem listDetailTrace_countP {α : Type} (listUrl : String)
    (det : String → Option α) (flat : α → Record) (entries : List ListEntry) :
    (listDetailTrace listUrl (some entries) det flat).countP ListEvent.isSleep
      = (entries.filter (fun e => (det e.url).isSome)).length := by
  have key : ∀ l : List ListEntry,
      (l.flatMap (listBlock det flat)).countP ListEvent.isSleep
        = (l.filter (fun e => (det e.url).isSome)).length := by
    intro l
    induction l with
    | nil => rfl
    | cons a l ih =>
      cases h : det a.url <;>
        simp [List.flatMap_cons, List.countP_append, List.filter_cons, h,
              listBlock, List.countP_cons, ListEvent.isSleep, ih]
  show (ListEvent.request listUrl
      :: entries.flatMap (listBlock det flat)).countP ListEvent.isSleep = _
  rw [List.countP_cons]
  simp [ListEvent.isSleep, key]

/-- The keys of a record, in insertion order. -/
def recordKeys (r : Record) : List String := r.map Prod.fst

/-- The declared field set of a `pokemon_details` record. -/
def pokemonFields : List String :=
  ["id", "name", "height", "weight", "base_experience", "is_default", "order",
   "species", "types", "abilities", "moves", "stats", "sprites"]

/-- The declared field set of a `berries` record. -/
def berryFields : List String :=
  ["id", "name", "growth_time", "max_harvest", "natural_gift_power", "size",
   "smoothness", "soil_dryness", "firmness", "flavors", "item"]

/-- The declared field set of an `abilities` record. -/
def abilityFields : List String :=
  ["id", "name", "is_main_series", "generation", "effect", "short_effect",
   "pokemon"]

/-- The declared field set of a `moves` record. -/
def moveFields : List String :=
  ["id", "name", "accuracy", "effect_chance", "pp", "priority", "power",
   "damage_class", "type", "generation", "effect", "short_effect"]

/-- The declared field set of a `types` record. -/
def typeFields : List String :=
  ["id", "name", "generation", "damage_relations", "pokemon"]

/-! ### Claims -/

/-- C3: for every list+detail category (berries, abilities, moves, types), a
failed initial list-endpoint request is logged and the resulting sequence for
that category is empty; no exception propagates (the model is total, the
`except RequestException` around the whole body returns normally). -/
theorem c3_list_failure_yields_empty
    (d1 : String → Option BerryPayload) (d2 : String → Option AbilityPayload)
    (d3 : String → Option MovePayload) (d4 : String → Option TypePayload) :
    berriesRun none d1 = ([], [listFailLine "berry"]) ∧
    abilitiesRun none d2 = ([], [listFailLine "ability"]) ∧
    movesRun none d3 = ([], [listFailLine "move"]) ∧
    typesRun none d4 = ([], [listFailLine "type"]) :=
  ⟨rfl, rfl, rfl, rfl⟩

/-- C8: the chess loader called with `start_month = "2024/01"`,
`end_month = "2024/01"` and no players passes both bounds through to the fetch
layer unchanged, with the default player list, whatever default range the
clock would have produced. -/
theorem c8_explicit_months_passed_through (defStart defEnd : String) :
    (chessLoad none (some "2024/01") (some "2024/01") defStart defEnd).players
        = defaultPlayers ∧
    (chessLoad none (some "2024/01") (some "2024/01") defStart defEnd).start_month
        = "2024/01" ∧
    (chessLoad none (some "2024/01") (some "2024/01") defStart defEnd).end_month
        = "2024/01" :=
  ⟨rfl, rfl, rfl⟩

/-- C9: when exactly one of `start_month`/`end_month` is truthy, the chess
loader replaces BOTH bounds with the computed default range; the bound the
caller provided is discarded. -/
theorem c9_single_bound_discarded (players : Option (List String))
    (sm em : Option String) (defStart defEnd : String)
    (h : (pyTruthyStr sm = true ∧ pyTruthyStr em = false) ∨
         (pyTruthyStr sm = false ∧ pyTruthyStr em = true)) :
    (chessLoad players sm em defStart defEnd).start_month = defStart ∧
    (chessLoad players sm em defStart defEnd).end_month = defEnd := by
  unfold chessLoad
  rcases h with ⟨h1, h2⟩ | ⟨h1, h2⟩ <;> simp [h1, h2]

/-- Witness for C9 at `start_month = "2024/01"`, `end_month = None`: both
bounds passed on are the computed defaults. -/
theorem c9_single_bound_discarded_witness :
    pyTruthyStr (some "2024/01") = true ∧ pyTruthyStr none = false ∧
    (chessLoad none (some "2024/01") none "2023/08" "2023/11").start_month
        = "2023/08" ∧
    (chessLoad none (some "2024/01") none "2023/08" "2023/11").end_month
        = "2023/11" :=
  ⟨by decide, rfl,
   (c9_single_bound_discarded none (some "2024/01") none "2023/08" "2023/11"
      (Or.inl ⟨by decide, rfl⟩)).1,
   (c9_single_bound_discarded none (some "2024/01") none "2023/08" "2023/11"
      (Or.inl ⟨by decide, rfl⟩)).2⟩

/-- C4: every record yielded by any of the five categories carries exactly the
declared field set of that category, in declaration order, even when optional
nested values are absent; absent optional values appear with a null value
rather than being omitted (shown for a null berry `item` and an empty ability
`effect_entries`). -/
theorem c4_declared_field_set (p : PokemonPayload) (b : BerryPayload)
    (a : AbilityPayload) (m : MovePayload) (ty : TypePayload) :
    recordKeys (flattenPokemon p) = pokemonFields ∧
    recordKeys (flattenBerry b) = berryFields ∧
    recordKeys (flattenAbility a) = abilityFields ∧
    recordKeys (flattenMove m) = moveFields ∧
    recordKeys (flattenType ty) = typeFields ∧
    (b.item = none → ("item", Val.null) ∈ flattenBerry b) ∧
    (a.effect_entries = [] →
      ("effect", Val.null) ∈ flattenAbility a ∧
      ("short_effect", Val.null) ∈ flattenAbility a) := by
  refine ⟨rfl, rfl, rfl, rfl, rfl, ?_, ?_⟩
  · intro h
    simp [flattenBerry, h]
  · intro h
    exact ⟨by simp [flattenAbility, h], by simp [flattenAbility, h]⟩

/-- Witness for C4 on concrete payloads with the optional parts absent. -/
theorem c4_declared_field_set_witness :
    stubBerry.item = none ∧ stubAbility.effect_entries = [] ∧
    recordKeys (flattenBerry stubBerry) = berryFields ∧
    ("item", Val.null) ∈ flattenBerry stubBerry ∧
    ("effect", Val.null) ∈ flattenAbility stubAbility :=
  ⟨rfl, rfl,
   (c4_declared_field_set (stubPokemonAt 1) stubBerry stubAbility stubMove
      stubType).2.1,
   (c4_declared_field_set (stubPokemonAt 1) stubBerry stubAbility stubMove
      stubType).2.2.2.2.2.1 rfl,
   ((c4_declared_field_set (stubPokemonAt 1) stubBerry stubAbility stubMove
      stubType).2.2.2.2.2.2 rfl).1⟩

/-- C6: flattening takes only the first element of the `effect_entries` array
(abilities and moves), and absent optional substructures yield null: a berry
whose `item` is null yields `item = null`, and an empty `effect_entries` list
yields `effect = null` and `short_effect = null`. -/
theorem c6_first_element_and_nulls (a : AbilityPayload) (m : MovePayload)
    (b : BerryPayload) (e : EffectEntry) (es : List EffectEntry) (i : NamedRef) :
    (a.effect_entries = [] →
      (flattenAbility a).lookup "effect" = some Val.null ∧
      (flattenAbility a).lookup "short_effect" = some Val.null) ∧
    (a.effect_entries = e :: es →
      (flattenAbility a).lookup "effect" = some e.effect ∧
      (flattenAbility a).lookup "short_effect" = some e.short_effect) ∧
    (m.effect_entries = [] →
      (flattenMove m).lookup "effect" = some Val.null ∧
      (flattenMove m).lookup "short_effect" = some Val.null) ∧
    (m.effect_entries = e :: es →
      (flattenMove m).lookup "effect" = some e.effect ∧
      (flattenMove m).lookup "short_effect" = some e.short_effect) ∧
    (b.item = none → (flattenBerry b).lookup "item" = some Val.null) ∧
    (b.item = some i → (flattenBerry b).lookup "item" = some (Val.str i.name)) := by
  refine ⟨fun h => ⟨?_, ?_⟩, fun h => ⟨?_, ?_⟩, fun h => ⟨?_, ?_⟩,
          fun h => ⟨?_, ?_⟩, fun h => ?_, fun h => ?_⟩ <;>
    simp [flattenAbility, flattenMove, flattenBerry, h, List.lookup]

/-- Witness for C6 on concrete payloads: a one-entry `effect_entries` list
supplies its first (only) element, a null `item` yields null, a present `item`
yields its name. -/
theorem c6_first_element_and_nulls_witness :
    stubAbilityEff.effect_entries
        = (⟨Val.str "full", Val.str "short"⟩ : EffectEntry) :: [] ∧
    stubBerryItem.item = some (⟨"oran"⟩ : NamedRef) ∧
    (flattenAbility stubAbilityEff).lookup "effect" = some (Val.str "full") ∧
    (flattenBerry stubBerryItem).lookup "item" = some (Val.str "oran") ∧
    (flattenBerry stubBerry).lookup "item" = some Val.null :=
  ⟨rfl, rfl,
   ((c6_first_element_and_nulls stubAbilityEff stubMove stubBerryItem
      ⟨Val.str "full", Val.str "short"⟩ [] ⟨"oran"⟩).2.1 rfl).1,
   ((c6_first_element_and_nulls stubAbilityEff stubMove stubBerryItem
      ⟨Val.str "full", Val.str "short"⟩ [] ⟨"oran"⟩).2.2.2.2.2 rfl),
   ((c6_first_element_and_nulls stubAbilityEff stubMove stubBerry
      ⟨Val.str "full", Val.str "short"⟩ [] ⟨"oran"⟩).2.2.2.2.1 rfl)⟩

/-- C1 counterexample: with the limit argument `N = 0`, `min(limit or 1010, 1010)`
evaluates to `1010` (Python `or` treats `0` as falsy), so when every request
succeeds the sequence yields 1010 records — not at most `min(0, 1010) = 0` as
the claim states for every `N`. -/
theorem c1_counterexample :
    (pokemonRecords (fun i => some (stubPokemonAt i)) (some 0)).length = 1010 ∧
    ¬ ((pokemonRecords (fun i => some (stubPokemonAt i)) (some 0)).length
        ≤ (min (0 : Int) MAX_POKEMON_ID).toNat) := by
  have h1 : pokemonRecords (fun i => some (stubPokemonAt i)) (some 0)
      = (pokemonIds (some 0)).map (fun i => flattenPokemon (stubPokemonAt i)) := by
    show (pokemonIds (some 0)).filterMap
        (fun i => some (flattenPokemon (stubPokemonAt i))) = _
    exact filterMap_some_eq_map _ _
  have h2 : (pokemonIds (some 0)).length = 1010 := by
    simp [pokemonIds, pokemonMaxId, pyOrInt, pythonRange, MAX_POKEMON_ID]
  have h3 : (pokemonRecords (fun i => some (stubPokemonAt i)) (some 0)).length
      = 1010 := by
    rw [h1, List.length_map, h2]
  exact ⟨h3, by rw [h3]; decide⟩

/-- C1 (amended to positive limits): for every limit argument `N ≥ 1` passed to
`pokemon_details`, the iterated id range is exactly `1, ..., min(N, 1010)`, the
sequence yields at most `min(N, 1010)` records, the yielded identifiers are
precisely the successful ids of that range in order (hence strictly ascending
and contiguous modulo skipped failures, starting at 1) whenever the API returns
each requested id in its body. -/
theorem c1_limit_bounds_sequence (N : Int) (oracle : Int → Option PokemonPayload)
    (hN : 1 ≤ N)
    (hid : ∀ i p, oracle i = some p → p.id = Val.int i) :
    pokemonIds (some N) = pythonRange 1 (min N MAX_POKEMON_ID + 1) ∧
    (pokemonRecords oracle (some N)).length ≤ (min N MAX_POKEMON_ID).toNat ∧
    (pokemonRecords oracle (some N)).map (fun r => r.lookup "id")
      = ((pokemonIds (some N)).filter (fun i => (oracle i).isSome)).map
          (fun i => some (Val.int i)) ∧
    ((pokemonIds (some N)).filter (fun i => (oracle i).isSome)).Pairwise (· < ·) := by
  have hmax : pokemonMaxId (some N) = min N MAX_POKEMON_ID := by
    have : N ≠ 0 := by omega
    simp [pokemonMaxId, pyOrInt, this]
  have hids : pokemonIds (some N) = pythonRange 1 (min N MAX_POKEMON_ID + 1) := by
    rw [pokemonIds, hmax]
  refine ⟨hids, ?_, ?_, ?_⟩
  · calc (pokemonRecords oracle (some N)).length
        ≤ (pokemonIds (some N)).length := List.length_filterMap_le _ _
      _ = (min N MAX_POKEMON_ID).toNat := by
          rw [hids]
          simp [pythonRange]
  · rw [pokemonRecords, List.map_filterMap]
    have hfun : (fun i => ((oracle i).map flattenPokemon).map
          (fun r => r.lookup "id"))
        = (fun i => if (oracle i).isSome then some (some (Val.int i)) else none) := by
      funext i
      cases h : oracle i with
      | none => rfl
      | some p =>
          simp [lookup_id_flattenPokemon, hid i p h]
    rw [hfun, filterMap_mask]
  · rw [pokemonIds]
    exact (pythonRange_pairwise 1 (pokemonMaxId (some N) + 1)).filter _

/-- Witness for C1 (amended) at `N = 10` with an id-faithful oracle failing at
id 3: at most `min(10, 1010) = 10` records, ids exactly the successful part of
`[1..10]`. -/
theorem c1_limit_bounds_sequence_witness :
    (1 : Int) ≤ 10 ∧
    pokemonIds (some 10) = pythonRange 1 11 ∧
    (pokemonRecords
        (fun i => if i = 3 then none else some (stubPokemonAt i)) (some 10)).length
      ≤ (min (10 : Int) MAX_POKEMON_ID).toNat :=
  ⟨by decide,
   by
     have h := (c1_limit_bounds_sequence 10
        (fun i => if i = 3 then none else some (stubPokemonAt i)) (by decide)
        (fun i p hp => by
          by_cases hi : i = 3
          · simp [hi] at hp
          · simp [hi] at hp
            rw [← hp]
            rfl)).1
     simpa using h,
   (c1_limit_bounds_sequence 10
      (fun i => if i = 3 then none else some (stubPokemonAt i)) (by decide)
      (fun i p hp => by
        by_cases hi : i = 3
        · simp [hi] at hp
        · simp [hi] at hp
          rw [← hp]
          rfl)).2.1⟩

/-- C7 counterexample: with a limit of 2 and both requests failing, the trace
is the two requests back to back, with no `time.sleep(0.1)` anywhere between
them — the 100ms delay is NOT unconditional: `time.sleep(0.1)` sits inside the
`try` after the yield, so a failed request jumps to `except ... continue` and
the next request is issued with no delay. -/
theorem c7_counterexample :
    pokemonTrace (fun _ => none) (some 2) = [Event.request 1, Event.request 2] ∧
    Event.sleep ∉ pokemonTrace (fun _ => none) (some 2) := by
  refine ⟨rfl, fun h => ?_⟩
  rw [show pokemonTrace (fun _ => none) (some 2)
        = [Event.request 1, Event.request 2] from rfl] at h
  simp at h

/-- C7 (amended): in every fetch-and-flatten sequence — `pokemon_details` and
the four list+detail resources `berries`, `abilities`, `moves`, `types` — each
item is requested exactly once in order, and the fixed 100ms delay occurs
after an item's request if and only if that request succeeded (it follows the
yielded record); after a failed request the next request is issued with no
intervening delay, and a failed list fetch produces no delay at all.
Consequently, in every sequence, the number of sleeps equals the number of
successful detail requests, not the number of request pairs. -/
theorem c7_delay_follows_success (o : Int → Option PokemonPayload)
    (lim : Option Int)
    (db : String → Option BerryPayload) (da : String → Option AbilityPayload)
    (dm : String → Option MovePayload) (dt : String → Option TypePayload)
    (lb la lm lt : List ListEntry) :
    (∀ i, Event.sleep ∈ pokemonBlock o i ↔ (o i).isSome = true) ∧
    ((pokemonTrace o lim).countP Event.isSleep
        = ((pokemonIds lim).filter (fun i => (o i).isSome)).length) ∧
    (∀ i, Event.request i ∈ pokemonBlock o i) ∧
    (∀ e, ListEvent.sleep ∈ listBlock db flattenBerry e
        ↔ (db e.url).isSome = true) ∧
    ((berriesTrace (some lb) db).countP ListEvent.isSleep
        = (lb.filter (fun e => (db e.url).isSome)).length) ∧
    (∀ e, ListEvent.request e.url ∈ listBlock db flattenBerry e) ∧
    berriesTrace none db = [ListEvent.request BERRY_LIST_URL] ∧
    (∀ e, ListEvent.sleep ∈ listBlock da flattenAbility e
        ↔ (da e.url).isSome = true) ∧
    ((abilitiesTrace (some la) da).countP ListEvent.isSleep
        = (la.filter (fun e => (da e.url).isSome)).length) ∧
    (∀ e, ListEvent.request e.url ∈ listBlock da flattenAbility e) ∧
    abilitiesTrace none da = [ListEvent.request ABILITY_URL] ∧
    (∀ e, ListEvent.sleep ∈ listBlock dm flattenMove e
        ↔ (dm e.url).isSome = true) ∧
    ((movesTrace (some lm) dm).countP ListEvent.isSleep
        = (lm.filter (fun e => (dm e.url).isSome)).length) ∧
    (∀ e, ListEvent.request e.url ∈ listBlock dm flattenMove e) ∧
    movesTrace none dm = [ListEvent.request MOVE_URL] ∧
    (∀ e, ListEvent.sleep ∈ listBlock dt flattenType e
        ↔ (dt e.url).isSome = true) ∧
    ((typesTrace (some lt) dt).countP ListEvent.isSleep
        = (lt.filter (fun e => (dt e.url).isSome)).length) ∧
    (∀ e, ListEvent.request e.url ∈ listBlock dt flattenType e) ∧
    typesTrace none dt = [ListEvent.request TYPE_URL] := by
  refine ⟨fun i => ?_, ?_, fun i => ?_,
          listBlock_sleep_iff db flattenBerry,
          listDetailTrace_countP BERRY_LIST_URL db flattenBerry lb,
          listBlock_request_mem db flattenBerry, rfl,
          listBlock_sleep_iff da flattenAbility,
          listDetailTrace_countP ABILITY_URL da flattenAbility la,
          listBlock_request_mem da flattenAbility, rfl,
          listBlock_sleep_iff dm flattenMove,
          listDetailTrace_countP MOVE_URL dm flattenMove lm,
          listBlock_request_mem dm flattenMove, rfl,
          listBlock_sleep_iff dt flattenType,
          listDetailTrace_countP TYPE_URL dt flattenType lt,
          listBlock_request_mem dt flattenType, rfl⟩
  · cases h : o i <;> simp [pokemonBlock, h]
  · have key : ∀ l : List Int,
        (l.flatMap (pokemonBlock o)).countP Event.isSleep
          = (l.filter (fun i => (o i).isSome)).length := by
      intro l
      induction l with
      | nil => rfl
      | cons a l ih =>
        cases h : o a <;>
          simp [List.flatMap_cons, List.countP_append, List.filter_cons, h,
                pokemonBlock, List.countP_cons, Event.isSleep, ih]
    exact key (pokemonIds lim)
  · cases h : o i <;> simp [pokemonBlock, h]

/-- Witness for C7 (amended): a sleep follows a successful request and none
follows a failed one, both in `pokemon_details` and in a list+detail
sequence. -/
theorem c7_delay_follows_success_witness :
    Event.sleep ∈ pokemonBlock (fun _ => some (stubPokemonAt 1)) 5 ∧
    Event.sleep ∉ pokemonBlock (fun _ : Int => (none : Option PokemonPayload)) 5 ∧
    ListEvent.sleep ∈
      listBlock (fun _ => some stubBerry) flattenBerry ⟨"aaa", "uu"⟩ ∧
    ListEvent.sleep ∉
      listBlock (fun _ => (none : Option BerryPayload)) flattenBerry
        ⟨"aaa", "uu"⟩ :=
  ⟨((c7_delay_follows_success (fun _ => some (stubPokemonAt 1)) none
      (fun _ => none) (fun _ => none) (fun _ => none) (fun _ => none)
      [] [] [] []).1 5).mpr rfl,
   fun h => by
     have hs := ((c7_delay_follows_success
        (fun _ : Int => (none : Option PokemonPayload)) none
        (fun _ => none) (fun _ => none) (fun _ => none) (fun _ => none)
        [] [] [] []).1 5).mp h
     simp at hs,
   ((c7_delay_follows_success (fun _ => none) none
      (fun _ => some stubBerry) (fun _ => none) (fun _ => none) (fun _ => none)
      [] [] [] []).2.2.2.1 ⟨"aaa", "uu"⟩).mpr rfl,
   fun h => by
     have hs := ((c7_delay_follows_success (fun _ => none) none
        (fun _ => (none : Option BerryPayload)) (fun _ => none) (fun _ => none)
        (fun _ => none) [] [] [] []).2.2.2.1 ⟨"aaa", "uu"⟩).mp h
     simp at hs⟩

/-- C2: a per-item fetch/parse failure (the oracle returning `none` for one
key) is never fatal: the failing item is absent from the output while every
other item is present and unaffected (the output equals the run of an
agreeing no-failure oracle restricted to the other items), and the failure is
logged with the offending identifier — for `pokemon_details` and for the
shared list+detail shape of the other four categories. -/
theorem c2_item_failure_skipped {α : Type} (K : Int) (lim : Option Int)
    (o o' : Int → Option PokemonPayload)
    (cat : String) (entries : List ListEntry) (u : String)
    (det det' : String → Option α) (flat : α → Record)
    (hoK : o K = none) (ho : ∀ i, i ≠ K → o i = o' i)
    (hdu : det u = none) (hd : ∀ v, v ≠ u → det v = det' v) :
    pokemonRecords o lim
      = ((pokemonIds lim).filter (fun i => decide (i ≠ K))).filterMap
          (fun i => (o' i).map flattenPokemon) ∧
    (K ∈ pokemonIds lim → pokemonLogLine K ∈ pokemonDetailsLogs o lim) ∧
    (listDetailRun cat (some entries) det flat).1
      = (entries.filter (fun e => decide (e.url ≠ u))).filterMap
          (fun e => (det' e.url).map flat) ∧
    (∀ e, e ∈ entries → e.url = u →
      listLogLine cat e.name ∈ (listDetailRun cat (some entries) det flat).2) := by
  refine ⟨?_, ?_, ?_, ?_⟩
  · exact filterMap_except (fun i => i) K
      (fun i => (o i).map flattenPokemon) (fun i => (o' i).map flattenPokemon)
      (fun a ha => by
        have ha2 : a = K := ha
        show Option.map flattenPokemon (o a) = none
        simp [ha2, hoK])
      (fun a ha => by
        have ha2 : a ≠ K := ha
        show Option.map flattenPokemon (o a) = Option.map flattenPokemon (o' a)
        rw [ho a ha2]) (pokemonIds lim)
  · intro hK
    have hmem : K ∈ (pokemonIds lim).filter (fun i => (o i).isNone) :=
      List.mem_filter.mpr ⟨hK, by simp [hoK]⟩
    exact List.mem_map_of_mem pokemonLogLine hmem
  · have h3 : (listDetailRun cat (some entries) det flat).1
        = entries.filterMap (fun e => (det e.url).map flat) := rfl
    rw [h3]
    exact filterMap_except (fun e => e.url) u
      (fun e => (det e.url).map flat) (fun e => (det' e.url).map flat)
      (fun e he => by
        have he2 : e.url = u := he
        show Option.map flat (det e.url) = none
        simp [he2, hdu])
      (fun e he => by
        have he2 : e.url ≠ u := he
        show Option.map flat (det e.url) = Option.map flat (det' e.url)
        rw [hd e.url he2]) entries
  · intro e he heu
    have hmem : e ∈ entries.filter (fun e => (det e.url).isNone) :=
      List.mem_filter.mpr ⟨he, by simp [heu, hdu]⟩
    exact List.mem_map_of_mem (fun e => listLogLine cat e.name) hmem

/-- Witness for C2: with every request failing and a limit of 2, id 1's
failure is logged with its identifier. -/
theorem c2_item_failure_skipped_witness :
    (1 : Int) ∈ pokemonIds (some 2) ∧
    pokemonLogLine 1 ∈ pokemonDetailsLogs (fun _ => none) (some 2) :=
  ⟨by decide,
   (c2_item_failure_skipped 1 (some 2) (fun _ => none) (fun _ => none)
      "berry" [⟨"aaa", "uu"⟩] "uu" (fun _ => none)
      (fun _ => (none : Option BerryPayload)) flattenBerry rfl
      (fun _ _ => rfl) rfl (fun _ _ => rfl)).2.1 (by decide)⟩

/-- For predicates on the first component, filtering commutes with `map Prod.fst`. -/
theorem map_fst_filter_contains (q : String → Bool) :
    ∀ l : List (String × List Record),
      (l.filter (fun p => q p.1)).map Prod.fst
        = (l.map Prod.fst).filter q := by
  intro l
  induction l with
  | nil => rfl
  | cons a l ih =>
    cases h : q a.1 <;> simp [List.filter_cons, h, ih]

/-- The `add_limit` replacement keeps every resource name unchanged. -/
theorem map_fst_limitMap (n : Int) :
    ∀ l : List (String × List Record),
      (l.map (fun p =>
          if p.1 = "pokemon_details" then (p.1, addLimit n p.2) else p)).map
        Prod.fst
        = l.map Prod.fst := by
  intro l
  induction l with
  | nil => rfl
  | cons a l ih =>
    by_cases h : a.1 = "pokemon_details" <;> simp [h, ih]

/-- C5: the loader resolves the requested names against the source's five
resources (the submitted table names are exactly the requested ones, in source
order), submits them under the fixed configuration — destination `bigquery`,
dataset `pokemon_data`, `full_refresh=False` (incremental) — leaves every
sequence other than `pokemon_details` untouched, truncates `pokemon_details`
with `add_limit` exactly when it is requested and the limit is truthy, and
afterwards just iterates the returned per-table row counts into report lines. -/
theorem c5_loader_submission (o : PokemonOracles) (rs : List String)
    (lim : Option Int)
    (packages : List (String × List (String × Option Nat))) :
    (pokemonLoad o rs lim).1 = pokemonPipelineConfig ∧
    (pokemonLoad o rs lim).1.destination = "bigquery" ∧
    (pokemonLoad o rs lim).1.dataset_name = "pokemon_data" ∧
    (pokemonLoad o rs lim).1.full_refresh = false ∧
    (pokemonLoad o rs lim).2.map Prod.fst
        = ((pokemonSourceTables o).map Prod.fst).filter (fun n => rs.contains n) ∧
    (∀ nm recs, (nm, recs) ∈ (pokemonLoad o rs lim).2 → nm ≠ "pokemon_details" →
        (nm, recs) ∈ pokemonSourceTables o) ∧
    (rs.contains "pokemon_details" = true → pyTruthyInt lim = true →
        ("pokemon_details", addLimit (lim.getD 0) (pokemonRecords o.pokemon none))
          ∈ (pokemonLoad o rs lim).2) ∧
    loadReport packages
      = packages.flatMap (fun pkg =>
          ("Package " ++ pkg.1 ++ ":")
            :: pkg.2.map (fun tp => rowCountLine tp.1 tp.2)) := by
  refine ⟨rfl, rfl, rfl, rfl, ?_, ?_, ?_, loadReport_eq packages⟩
  · cases hc : rs.contains "pokemon_details" && pyTruthyInt lim
    · simp only [pokemonLoad, hc, Bool.false_eq_true, if_false]
      exact map_fst_filter_contains (fun n => rs.contains n) (pokemonSourceTables o)
    · simp only [pokemonLoad, hc, if_true]
      rw [map_fst_filter_contains (fun n => rs.contains n), map_fst_limitMap]
  · intro nm recs hmem hnm
    have hmem2 : (nm, recs) ∈
        (if rs.contains "pokemon_details" && pyTruthyInt lim then
          (pokemonSourceTables o).map (fun p =>
            if p.1 = "pokemon_details" then (p.1, addLimit (lim.getD 0) p.2)
            else p)
        else pokemonSourceTables o) :=
      List.mem_of_mem_filter hmem
    cases hc : rs.contains "pokemon_details" && pyTruthyInt lim
    · rw [hc] at hmem2
      simpa using hmem2
    · rw [hc] at hmem2
      simp only [if_true] at hmem2
      obtain ⟨p, hp, hpe⟩ := List.mem_map.mp hmem2
      by_cases hp1 : p.1 = "pokemon_details"
      · rw [if_pos hp1] at hpe
        have hfst : p.1 = nm := congrArg Prod.fst hpe
        exact absurd (hfst ▸ hp1) hnm
      · rw [if_neg hp1] at hpe
        exact hpe ▸ hp
  · intro h1 h2
    have hc : (rs.contains "pokemon_details" && pyTruthyInt lim) = true := by
      rw [h1, h2]; rfl
    show ("pokemon_details",
        addLimit (lim.getD 0) (pokemonRecords o.pokemon none)) ∈
      (if rs.contains "pokemon_details" && pyTruthyInt lim then
          (pokemonSourceTables o).map (fun p =>
            if p.1 = "pokemon_details" then (p.1, addLimit (lim.getD 0) p.2)
            else p)
        else pokemonSourceTables o).filter (fun p => rs.contains p.1)
    rw [hc]
    simp only [if_true]
    refine List.mem_filter.mpr ⟨?_, by simpa using h1⟩
    refine List.mem_map.mpr
      ⟨("pokemon_details", pokemonRecords o.pokemon none), ?_, by simp⟩
    simp [pokemonSourceTables]

/-- Witness for C5 on a concrete call: the fixed destination and write mode. -/
theorem c5_loader_submission_witness :
    (pokemonLoad emptyOracles ["berries"] none).1.destination = "bigquery" ∧
    (pokemonLoad emptyOracles ["berries"] none).1.full_refresh = false :=
  ⟨(c5_loader_submission emptyOracles ["berries"] none []).2.1,
   (c5_loader_submission emptyOracles ["berries"] none []).2.2.2.1⟩

/-- C10: a falsy pokemon limit applies no truncation: `pokemon_limit = 0`
behaves exactly like `None` in the loader, the generator with `limit = 0`
selects the known maximum of 1010 ids, and the `add_limit` branch runs only
when `"pokemon_details"` is requested AND the limit is truthy. -/
theorem c10_falsy_limit_is_unlimited (o : PokemonOracles) (rs : List String)
    (lim : Option Int) :
    pokemonLoad o rs (some 0) = pokemonLoad o rs none ∧
    pokemonMaxId (some 0) = MAX_POKEMON_ID ∧
    (pokemonIds (some 0)).length = 1010 ∧
    ((rs.contains "pokemon_details" && pyTruthyInt lim) = false →
      pokemonLoad o rs lim = pokemonLoad o rs none) := by
  refine ⟨?_, by simp [pokemonMaxId, pyOrInt, MAX_POKEMON_ID], ?_, ?_⟩
  · simp [pokemonLoad, pyTruthyInt]
  · simp [pokemonIds, pokemonMaxId, pyOrInt, pythonRange, MAX_POKEMON_ID]
  · intro h
    have h2 : (rs.contains "pokemon_details" && pyTruthyInt none) = false := by
      cases rs.contains "pokemon_details" <;> rfl
    simp only [pokemonLoad, h, h2, Bool.false_eq_true, if_false]

/-- Witness for C10: a truthy limit without `pokemon_details` among the
requested resources changes nothing. -/
theorem c10_falsy_limit_is_unlimited_witness :
    (["berries"].contains "pokemon_details" && pyTruthyInt (some 5)) = false ∧
    pokemonLoad emptyOracles ["berries"] (some 5)
      = pokemonLoad emptyOracles ["berries"] none :=
  ⟨by decide,
   (c10_falsy_limit_is_unlimited emptyOracles ["berries"] (some 5)).2.2.2
     (by decide)⟩

end DltPipelines
